import Mathlib

/-!
Shallow embedding of the MCP tool-enumeration service
(`src/application/services/tool_enumeration_service` and the domain DTOs),
together with theorems settling the specification claims about it.

Python values that may be arbitrary JSON (dict values, tool metadata) are
modelled by the `Json` inductive below; Python `None` is `Json.null`, and
`dict.get(k)` on an absent key returns `Json.null`, exactly as in Python
where an absent-key `get` and a stored `None` are indistinguishable.
-/

namespace McpEnum

/-- JSON-like Python values (dicts are ordered association lists, as Python
dicts preserve insertion order). -/
inductive Json where
  | null
  | bool (b : Bool)
  | num (n : Int)
  | str (s : String)
  | arr (items : List Json)
  | obj (entries : List (String × Json))
deriving Repr

/-- Association-list lookup used for Python dict indexing. -/
def lookupEntry (k : String) : List (String × Json) → Option Json
  | [] => none
  | (k', v) :: rest => if k' = k then some v else lookupEntry k rest

/-- `k in d` style lookup: `some v` when the key is present on a dict. -/
def Json.get? (j : Json) (k : String) : Option Json :=
  match j with
  | .obj entries => lookupEntry k entries
  | _ => none

/-- Python `d.get(k)`: the stored value, or `None` when absent. -/
def Json.pyGet (j : Json) (k : String) : Json :=
  (j.get? k).getD .null

/-- Python `d.get(k, dflt)`: the stored value, or `dflt` when absent. -/
def Json.pyGetD (j : Json) (k : String) (dflt : Json) : Json :=
  (j.get? k).getD dflt

/-- Python truthiness of a JSON value. -/
def Json.truthy : Json → Bool
  | .null => false
  | .bool b => b
  | .num n => n != 0
  | .str s => s != ""
  | .arr items => !items.isEmpty
  | .obj entries => !entries.isEmpty

/-- Python `isinstance(x, dict)`. -/
def Json.isDict : Json → Bool
  | .obj _ => true
  | _ => false

/-- Python `len(d)` for a dict (number of keys). -/
def Json.numKeys : Json → Nat
  | .obj entries => entries.length
  | _ => 0

/-- Python `k in d` for a dict. -/
def Json.hasKey (j : Json) (k : String) : Bool :=
  (j.get? k).isSome

/-- Python `list(d.keys())`. -/
def Json.keys : Json → List String
  | .obj entries => entries.map Prod.fst
  | _ => []

/-- Whether the string `s` occurs anywhere inside a JSON value
(as a string leaf or a dict value); used to witness data exposure. -/
def Json.mentionsStr (s : String) : Json → Bool
  | .null => false
  | .bool _ => false
  | .num _ => false
  | .str t => t == s
  | .arr [] => false
  | .arr (x :: xs) => Json.mentionsStr s x || Json.mentionsStr s (.arr xs)
  | .obj [] => false
  | .obj ((_, v) :: es) => Json.mentionsStr s v || Json.mentionsStr s (.obj es)

/-! ## Domain entities and DTOs (`domain/entities/mcp_config.py`,
`domain/dto/tool_enumeration_dtos.py`) -/

/-- `McpServerConfig` (pydantic model): all transport hints optional. -/
structure McpServerConfig where
  command : Option String := none
  args : Option (List String) := none
  env : Option (List (String × String)) := none
  url : Option String := none
  headers : Option (List (String × String)) := none
  timeout : Option Nat := some 30
deriving Repr

/-- Python truthiness of an `Optional[str]` field (`None` and `""` are falsy). -/
def optStrTruthy : Option String → Bool
  | none => false
  | some s => s != ""

/-- Python truthiness of an `Optional[List[...]]` field (`None` and `[]` are falsy). -/
def optListTruthy {α : Type} : Option (List α) → Bool
  | none => false
  | some l => !l.isEmpty

/-- `ToolDiscoveryMethod` enum; also indexes the strategy dictionary. -/
inductive ToolDiscoveryMethod where
  | mcp_json_parsing
  | http_discovery
  | stdio_introspection
  | combined
deriving Repr, DecidableEq

/-- `ServerTransportType` enum. -/
inductive ServerTransportType where
  | stdio
  | http
  | sse
  | websocket
  | unknown
deriving Repr, DecidableEq

/-- `ToolParameter` DTO. -/
structure ToolParameter where
  name : String
  type : String := "string"
  description : Option String := none
  required : Bool := false
  dflt : Option Json := none
  allowed : Option (List Json) := none
deriving Repr

/-- `ToolSchema` DTO. -/
structure ToolSchema where
  type : String := "object"
  properties : List (String × ToolParameter) := []
  required : List String := []
  additionalProperties : Bool := false
deriving Repr

/-- `EnumeratedTool` DTO; `metadata` is a free-form dict. -/
structure EnumeratedTool where
  name : String
  description : Option String := none
  server_name : String
  transport_type : ServerTransportType
  input_schema : Option ToolSchema := none
  metadata : List (String × Json) := []
  discovery_method : ToolDiscoveryMethod
  discovery_timestamp : String
deriving Repr

/-- `ServerEnumerationResult` DTO. -/
structure ServerEnumerationResult where
  server_name : String
  transport_type : ServerTransportType
  server_url : Option String := none
  command : Option String := none
  tools : List EnumeratedTool := []
  errors : List String := []
  warnings : List String := []
  discovery_duration_ms : Option Nat := none
deriving Repr

/-- `ServerResult` DTO (simplified per-server summary). -/
structure ServerResult where
  name : String
  status : String
  tool_count : Nat
  error : Option String
deriving Repr

/-- `SimplifiedTool` DTO (flattened tool entry). -/
structure SimplifiedTool where
  server : String
  name : String
  description : Option String
  inputSchema : Option ToolSchema
deriving Repr

/-- `ToolEnumerationResponse` DTO. -/
structure ToolEnumerationResponse where
  status : String
  message : String
  timestamp : String
  servers : List ServerResult
  tools : List SimplifiedTool
  total_servers : Nat
  connected_servers : Nat
deriving Repr

/-! ## Strategy selection and URL extraction (`service.py`) -/

/-- `ToolEnumerationService._auto_select_strategy`: dispatch on configuration
shape, returning the key into the strategy dictionary. -/
def auto_select_strategy (server_config : McpServerConfig) : ToolDiscoveryMethod :=
  if optStrTruthy server_config.url then .http_discovery
  else if optStrTruthy server_config.command then .stdio_introspection
  else .mcp_json_parsing

/-- `_extract_server_url` (same body in `service.py` and
`mcp_json_strategy.py`): direct URL field, else first http(s) argument. -/
def extract_server_url (server_config : McpServerConfig) : Option String :=
  if optStrTruthy server_config.url then server_config.url
  else if optStrTruthy server_config.command && optListTruthy server_config.args then
    (server_config.args.getD []).find? (fun arg =>
      arg.startsWith "https://" || arg.startsWith "http://")
  else none

/-- `McpJsonParsingStrategy.get_transport_type`. -/
def mcpJson_get_transport_type (server_config : McpServerConfig) : ServerTransportType :=
  if optStrTruthy server_config.url then .http
  else if optStrTruthy server_config.command then .stdio
  else .unknown

/-- `strategy.get_transport_type(server_config)` for the strategy the
selector chose (`HttpToolDiscoveryStrategy` returns HTTP unconditionally,
`StdioToolDiscoveryStrategy` returns STDIO unconditionally). -/
def strategy_get_transport_type (method : ToolDiscoveryMethod)
    (server_config : McpServerConfig) : ServerTransportType :=
  match method with
  | .http_discovery => .http
  | .stdio_introspection => .stdio
  | _ => mcpJson_get_transport_type server_config

/-! ## Fallback strategy (`strategies/mcp_json_strategy.py`) -/

/-- `None`-or-string metadata value. -/
def jsonOfOptStr : Option String → Json
  | none => .null
  | some s => .str s

/-- `None`-or-string-list metadata value. -/
def jsonOfOptArgs : Option (List String) → Json
  | none => .null
  | some l => .arr (l.map .str)

/-- `None`-or-string-map metadata value (the raw `env` dict). -/
def jsonOfOptEnv : Option (List (String × String)) → Json
  | none => .null
  | some kvs => .obj (kvs.map (fun p => (p.1, .str p.2)))

/-- `McpJsonParsingStrategy.discover_tools`: synthesize one placeholder tool
from the configuration metadata. `now` stands for
`datetime.utcnow().isoformat()`. The body raises no exception, so the
`except` branch that would append an error is unreachable. -/
def mcpJsonParsing_discover_tools (server_name : String)
    (server_config : McpServerConfig) (now : String) :
    List EnumeratedTool × List String × List String :=
  let server_url := extract_server_url server_config
  let basic_tool : EnumeratedTool :=
    { name := server_name ++ "_config",
      description := some ("Configuration-based tool for " ++ server_name),
      server_name := server_name,
      transport_type := mcpJson_get_transport_type server_config,
      input_schema := none,
      metadata :=
        [("source", .str "mcp_json_config"),
         ("command", jsonOfOptStr server_config.command),
         ("url", jsonOfOptStr server_url),
         ("args", jsonOfOptArgs server_config.args),
         ("env", jsonOfOptEnv server_config.env),
         ("note", .str "Fallback tool created from MCP JSON configuration")],
      discovery_method := .mcp_json_parsing,
      discovery_timestamp := now }
  ([basic_tool], [], ["Created fallback tool from MCP JSON config for " ++ server_name])

/-! ## HTTP strategy: tool-entry normalization and the public-info probe
(`strategies/http_strategy.py`) -/

/-- The raw fields the per-entry normalization extracts before the
`EnumeratedTool` is constructed: `actual_name`, `description`, `schema_data`
(each a Python value; `Json.null` is Python `None`). -/
structure RawToolFields where
  actual_name : Json
  description : Json
  schema_data : Json
deriving Repr

/-- The direct field names checked by the nested-structure detection:
`["name", "description", "inSchema", "inputSchema"]`. -/
def recognized_direct_keys : List String :=
  ["name", "description", "inSchema", "inputSchema"]

/-- The wrapper-entry detection:
`len(tool_data) == 1 and not any(key in tool_data for key in recognized_direct_keys)`. -/
def is_nested_tool_entry (tool_data : Json) : Bool :=
  tool_data.numKeys == 1 &&
    !(recognized_direct_keys.any (fun key => tool_data.hasKey key))

/-- The per-entry normalization shared by the three HTTP discovery methods
(`_discover_public_info` lines 113-134): `i` is the `enumerate` index,
non-dict entries are skipped. -/
def normalizeToolEntry (i : Nat) (tool_data : Json) : Option RawToolFields :=
  if tool_data.isDict then
    if is_nested_tool_entry tool_data then
      let tool_name := tool_data.keys.headD ""
      let tool_details := tool_data.pyGet tool_name
      if tool_details.isDict then
        some { actual_name := tool_details.pyGetD "name" (.str tool_name),
               description := tool_details.pyGet "description",
               schema_data := tool_details.pyGetD "inSchema"
                 (tool_details.pyGetD "inputSchema" (tool_details.pyGet "schema")) }
      else
        some { actual_name := .str tool_name, description := .null, schema_data := .null }
    else
      let name0 := tool_data.pyGet "name"
      let tool_name :=
        if !name0.truthy then
          tool_data.pyGetD "id" (tool_data.pyGetD "tool_name" (.str ("tool_" ++ toString i)))
        else name0
      some { actual_name := tool_name,
             description := tool_data.pyGetD "description" (tool_data.pyGet "summary"),
             schema_data := tool_data.pyGetD "inputSchema"
               (tool_data.pyGetD "inSchema" (tool_data.pyGet "schema")) }
  else none

/-- The info-probe endpoint list exactly as written in the source:
`["/info", "/.well-known/mcp", "/api/info", "/"][::-1]`. -/
def info_endpoints : List String :=
  ["/info", "/.well-known/mcp", "/api/info", "/"].reverse

/-- `tools_data = data.get("tools", data.get("data", []))` when `data` is a
dict, else `data` itself. -/
def extract_tools_data (data : Json) : Json :=
  if data.isDict then data.pyGetD "tools" (data.pyGetD "data" (.arr []))
  else data

/-- Python `for x in v`: the iteration sequence of a JSON value, or `none`
when the value is not iterable (the raised TypeError is caught by the
per-endpoint `except`, which moves on to the next endpoint). -/
def Json.iter : Json → Option (List Json)
  | .arr items => some items
  | .obj entries => some (entries.map (fun e => .str e.1))
  | .str s => some (s.data.map (fun c => .str (String.mk [c])))
  | _ => none

/-- One endpoint of the public-info probe: `resp` maps an endpoint path to
the JSON body of a 200 response (`none` = non-200 or request failure).
Yields the normalized entries, or `none` when this endpoint is skipped. -/
def endpoint_entries (resp : String → Option Json) (endpoint : String) :
    Option (List RawToolFields) :=
  match resp endpoint with
  | none => none
  | some data =>
    match (extract_tools_data data).iter with
    | none => none
    | some items => some (items.enum.filterMap (fun p => normalizeToolEntry p.1 p.2))

/-- The `for endpoint in endpoints` loop of `_discover_public_info`: `tools`
accumulates across endpoints and the loop returns as soon as it is
non-empty; after the loop an empty `tools` raises. Each discovered entry is
paired with the endpoint it came from (recorded in the tool's metadata by
the source). -/
def public_info_loop (resp : String → Option Json) :
    List String → List (String × RawToolFields) →
    Except String (List (String × RawToolFields))
  | [], tools =>
    if tools.isEmpty then .error "No valid public info endpoints found" else .ok tools
  | endpoint :: rest, tools =>
    match endpoint_entries resp endpoint with
    | none => public_info_loop resp rest tools
    | some entries =>
      let tools2 := tools ++ entries.map (fun e => (endpoint, e))
      if tools2.isEmpty then public_info_loop resp rest tools2 else .ok tools2

/-- `HttpToolDiscoveryStrategy._discover_public_info`, abstracted over the
HTTP responses. -/
def discover_public_info (resp : String → Option Json) :
    Except String (List (String × RawToolFields)) :=
  public_info_loop resp info_endpoints []

/-- The tools one endpoint alone would contribute (used to state the
first-success property of the probe chain). -/
def endpoint_tools (resp : String → Option Json) (endpoint : String) :
    List (String × RawToolFields) :=
  ((endpoint_entries resp endpoint).getD []).map (fun e => (endpoint, e))

/-! ## Orchestrator: per-server boundary (`service.py`,
`_enumerate_server_tools`) -/

/-- The outcome of `await asyncio.wait_for(strategy.discover_tools(...))`:
the `(tools, errors, warnings)` triple, a deadline expiry
(`asyncio.TimeoutError`), or any other exception with its message. -/
inductive DiscoveryOutcome where
  | ok (tools : List EnumeratedTool) (errors : List String) (warnings : List String)
  | timeout
  | exn (msg : String)
deriving Repr

/-- `ToolEnumerationService._enumerate_server_tools`: wraps one server's
discovery outcome into a `ServerEnumerationResult`, stripping schemas when
`include_schemas` is false, and converting deadline expiry or an unexpected
exception into an error result instead of propagating. `duration_ms` stands
for the measured wall-clock duration of the success path. -/
def enumerate_server_tools (server_name : String) (server_config : McpServerConfig)
    (timeout_seconds : Nat) (include_schemas : Bool) (outcome : DiscoveryOutcome)
    (duration_ms : Nat) : ServerEnumerationResult :=
  match outcome with
  | .ok tools errors warnings =>
    let strategy := auto_select_strategy server_config
    let tools :=
      if include_schemas then tools
      else tools.map (fun tool => { tool with input_schema := none })
    { server_name := server_name,
      transport_type := strategy_get_transport_type strategy server_config,
      server_url := extract_server_url server_config,
      command := server_config.command,
      tools := tools,
      errors := errors,
      warnings := warnings,
      discovery_duration_ms := some duration_ms }
  | .timeout =>
    { server_name := server_name,
      transport_type := .unknown,
      server_url := extract_server_url server_config,
      command := server_config.command,
      tools := [],
      errors := [s!"Discovery timeout after {timeout_seconds} seconds"],
      warnings := [],
      discovery_duration_ms := some (timeout_seconds * 1000) }
  | .exn msg =>
    { server_name := server_name,
      transport_type := .unknown,
      server_url := extract_server_url server_config,
      command := server_config.command,
      tools := [],
      errors := ["Discovery failed: " ++ msg],
      warnings := [],
      discovery_duration_ms := some 0 }

/-! ## Orchestrator: parallel and sequential collection (`enumerate_tools`,
lines 92-126). A per-server run is an `Except`: `.error` models the
(pathological) case of an exception escaping `_enumerate_server_tools`,
which both branches convert into a global error string. -/

/-- The `for i, result in enumerate(results)` loop after `asyncio.gather`
(parallel branch); `gather` preserves task order, so each result is paired
with its server name. -/
def gather_collect :
    List (String × Except String ServerEnumerationResult) →
    List ServerEnumerationResult × List String
  | [] => ([], [])
  | (server_name, r) :: rest =>
    let acc := gather_collect rest
    match r with
    | .ok result => (result :: acc.1, acc.2)
    | .error e => (acc.1, (s!"Server {server_name} enumeration failed: {e}") :: acc.2)

/-- The parallel branch: dispatch all servers, then collect. -/
def parallel_enumerate
    (f : String → McpServerConfig → Except String ServerEnumerationResult)
    (servers : List (String × McpServerConfig)) :
    List ServerEnumerationResult × List String :=
  let results := servers.map (fun p => f p.1 p.2)
  let keys := servers.map Prod.fst
  gather_collect (keys.zip results)

/-- The sequential branch: one server at a time, in configuration order. -/
def sequential_enumerate
    (f : String → McpServerConfig → Except String ServerEnumerationResult) :
    List (String × McpServerConfig) →
    List ServerEnumerationResult × List String
  | [] => ([], [])
  | (server_name, server_config) :: rest =>
    let acc := sequential_enumerate f rest
    match f server_name server_config with
    | .ok result => (result :: acc.1, acc.2)
    | .error e => (acc.1, (s!"Server {server_name} enumeration failed: {e}") :: acc.2)

/-! ## Orchestrator: aggregation (`enumerate_tools`, lines 128-169) -/

/-- One iteration of the `for server in servers` aggregation loop. -/
def agg_step (acc : List ServerResult × List SimplifiedTool × Nat)
    (server : ServerEnumerationResult) :
    List ServerResult × List SimplifiedTool × Nat :=
  let server_status := if server.errors.isEmpty then "connected" else "error"
  let connected_count := if server_status = "connected" then acc.2.2 + 1 else acc.2.2
  let simplified_server : ServerResult :=
    { name := server.server_name,
      status := server_status,
      tool_count := server.tools.length,
      error := server.errors.head? }
  let new_tools := server.tools.map (fun tool =>
    ({ server := server.server_name,
       name := tool.name,
       description := tool.description,
       inputSchema := tool.input_schema } : SimplifiedTool))
  (acc.1 ++ [simplified_server], acc.2.1 ++ new_tools, connected_count)

/-- The aggregation loop over the collected per-server results. -/
def aggregate_servers (servers : List ServerEnumerationResult) :
    List ServerResult × List SimplifiedTool × Nat :=
  servers.foldl agg_step ([], [], 0)

/-- The tail of `enumerate_tools`: build the response from the collected
results. `total` is `len(mcp_json.mcpServers)` and `now` the timestamp. -/
def enumerate_tools_response (total : Nat)
    (servers : List ServerEnumerationResult) (now : String) :
    ToolEnumerationResponse :=
  let agg := aggregate_servers servers
  let connected_count := agg.2.2
  let overall_status := if connected_count > 0 then "success" else "error"
  let message :=
    if connected_count = total then
      s!"Successfully connected to all {connected_count} servers"
    else
      s!"Connected to {connected_count} of {total} servers"
  { status := overall_status,
    message := message,
    timestamp := now,
    servers := agg.1,
    tools := agg.2.1,
    total_servers := total,
    connected_servers := connected_count }

/-- `enumerate_tools` over an abstract per-server runner: collect (parallel
or sequential branch), then aggregate. -/
def enumerate_tools_model
    (f : String → McpServerConfig → Except String ServerEnumerationResult)
    (parallel_discovery : Bool) (servers : List (String × McpServerConfig))
    (now : String) : ToolEnumerationResponse :=
  let collected :=
    if parallel_discovery then parallel_enumerate f servers
    else sequential_enumerate f servers
  enumerate_tools_response servers.length collected.1 now

/-! ## The full pipeline with strategy dispatch -/

/-- The non-deterministic surroundings of one request: what the HTTP and
STDIO strategies would return for each server (including timeout or failure
at the `wait_for` boundary), the request timestamp, and the measured
per-server durations. -/
structure DiscoveryEnv where
  http_outcome : String → McpServerConfig → DiscoveryOutcome
  stdio_outcome : String → McpServerConfig → DiscoveryOutcome
  now : String
  duration_ms : String → Nat

/-- `strategy = self._auto_select_strategy(server_config)` followed by
`await asyncio.wait_for(strategy.discover_tools(...))`: the fallback
strategy is pure and always completes, the other two take their outcome
from the environment. -/
def dispatch_outcome (env : DiscoveryEnv) (server_name : String)
    (server_config : McpServerConfig) : DiscoveryOutcome :=
  match auto_select_strategy server_config with
  | .http_discovery => env.http_outcome server_name server_config
  | .stdio_introspection => env.stdio_outcome server_name server_config
  | _ =>
    let r := mcpJsonParsing_discover_tools server_name server_config env.now
    .ok r.1 r.2.1 r.2.2

/-- One server's `_enumerate_server_tools` under the environment. -/
def server_result_model (env : DiscoveryEnv) (timeout_seconds : Nat)
    (include_schemas : Bool) (server_name : String)
    (server_config : McpServerConfig) : ServerEnumerationResult :=
  enumerate_server_tools server_name server_config timeout_seconds include_schemas
    (dispatch_outcome env server_name server_config) (env.duration_ms server_name)

/-- The whole `enumerate_tools` under the environment
(`_enumerate_server_tools` catches every exception, so every per-server run
settles with `.ok`). -/
def enumerate_tools_full (env : DiscoveryEnv) (parallel_discovery : Bool)
    (timeout_seconds : Nat) (include_schemas : Bool)
    (servers : List (String × McpServerConfig)) : ToolEnumerationResponse :=
  enumerate_tools_model
    (fun n c => .ok (server_result_model env timeout_seconds include_schemas n c))
    parallel_discovery servers env.now

/-! ## STDIO strategy: post-spawn control flow and teardown
(`strategies/stdio_strategy.py`, `discover_tools` lines 104-263) -/

/-- Lifecycle state of the spawned process as the call returns. -/
inductive ProcState where
  | running
  | terminated
  | killed
deriving Repr, DecidableEq

/-- The `finally` block (lines 258-263): `process.terminate()` then
`process.wait(timeout=5)`; if the bounded wait fails (the process is still
alive) the bare `except` falls through to `process.kill()`. `responds`
says whether the process exits within the bounded wait after the graceful
signal. -/
def process_teardown (responds : Bool) : ProcState :=
  if responds then .terminated else .killed

/-- Every exit path out of the `try` body that starts right after
`subprocess.Popen` (each early `return`, normal completion, each caught
exception class, and a propagating exception such as cancellation at an
await point). -/
inductive StdioBodyExit where
  | early_termination
  | broken_pipe_init
  | init_error (e : String)
  | init_timeout
  | broken_pipe_tools
  | tools_error (code msg : String)
  | tools_timeout
  | completed (tools : List EnumeratedTool) (warnings : List String)
  | json_decode_error (e : String)
  | cancelled
deriving Repr

/-- The portion of `StdioToolDiscoveryStrategy.discover_tools` from the
`subprocess.Popen` call on: the returned (or propagated) value for each
exit path, paired with the state of the spawned process after the call.
The `finally` block runs on every path, including the propagating one;
on the `completed` path with no tools and no errors the post-`try` code
appends the no-tools warning (early returns skip it, but they all carry
errors). -/
def stdio_post_spawn (server_name : String) (exit_path : StdioBodyExit)
    (responds : Bool) :
    Except String (List EnumeratedTool × List String × List String) × ProcState :=
  match exit_path with
  | .early_termination =>
    (.ok ([], [s!"Process for {server_name} terminated early"], []),
     process_teardown responds)
  | .broken_pipe_init =>
    (.ok ([], [s!"Broken pipe when initializing {server_name}"], []),
     process_teardown responds)
  | .init_error e =>
    (.ok ([], [s!"Initialization failed for {server_name}: {e}"], []),
     process_teardown responds)
  | .init_timeout =>
    (.ok ([], [s!"Initialization timeout for {server_name}"], []),
     process_teardown responds)
  | .broken_pipe_tools =>
    (.ok ([], [s!"Broken pipe when requesting tools from {server_name}"], []),
     process_teardown responds)
  | .tools_error code msg =>
    (.ok ([], [s!"MCP server error {code}: {msg}"], []),
     process_teardown responds)
  | .tools_timeout =>
    (.ok ([], [s!"Tools list timeout for {server_name}"], []),
     process_teardown responds)
  | .completed tools warnings =>
    (.ok (tools, [],
      if tools.isEmpty then
        warnings ++ [s!"STDIO server {server_name}: No tools discovered"]
      else warnings),
     process_teardown responds)
  | .json_decode_error e =>
    (.ok ([], [s!"Invalid JSON response from {server_name}: {e}"], []),
     process_teardown responds)
  | .cancelled =>
    (.error "cancelled", process_teardown responds)

/-! ## Helper definitions and lemmas about the aggregation loop -/

/-- The per-server summary the aggregation loop builds for one result. -/
def simplified_server_of (server : ServerEnumerationResult) : ServerResult :=
  { name := server.server_name,
    status := if server.errors.isEmpty then "connected" else "error",
    tool_count := server.tools.length,
    error := server.errors.head? }

/-- The flattened tool entries the aggregation loop builds for one result. -/
def simplified_tools_of (server : ServerEnumerationResult) : List SimplifiedTool :=
  server.tools.map (fun tool =>
    { server := server.server_name,
      name := tool.name,
      description := tool.description,
      inputSchema := tool.input_schema })

theorem agg_step_eq (acc : List ServerResult × List SimplifiedTool × Nat)
    (server : ServerEnumerationResult) :
    agg_step acc server
      = (acc.1 ++ [simplified_server_of server],
         acc.2.1 ++ simplified_tools_of server,
         acc.2.2 + (if server.errors.isEmpty then 1 else 0)) := by
  obtain ⟨a, b, c⟩ := acc
  by_cases h : server.errors.isEmpty <;>
    simp [agg_step, simplified_server_of, simplified_tools_of, h]

theorem aggregate_servers_foldl (servers : List ServerEnumerationResult) :
    ∀ a b c, servers.foldl agg_step (a, b, c)
      = (a ++ servers.map simplified_server_of,
         b ++ (servers.map simplified_tools_of).flatten,
         c + servers.countP (fun s => s.errors.isEmpty)) := by
  induction servers with
  | nil => intro a b c; simp
  | cons s rest ih =>
    intro a b c
    rw [List.foldl_cons, agg_step_eq, ih]
    by_cases h : s.errors.isEmpty
    · simp [h, List.countP_cons]
      omega
    · simp [h, List.countP_cons]

theorem aggregate_servers_eq (servers : List ServerEnumerationResult) :
    aggregate_servers servers
      = (servers.map simplified_server_of,
         (servers.map simplified_tools_of).flatten,
         servers.countP (fun s => s.errors.isEmpty)) := by
  simpa using aggregate_servers_foldl servers [] [] 0

theorem countP_pos_iff_any {α : Type} (p : α → Bool) (l : List α) :
    0 < l.countP p ↔ l.any p = true := by
  induction l with
  | nil => simp
  | cons x xs ih =>
    cases h : p x <;> simp [List.countP_cons, List.any_cons, h, ← ih]

/-- C1: each per-server summary has status "connected" iff that server's
error list is empty (tool count plays no role), `connected_servers` counts
exactly those servers, and the overall status is "success" iff at least one
server is connected, "error" otherwise. -/
theorem claim1_connected_status (total : Nat)
    (servers : List ServerEnumerationResult) (now : String) :
    (enumerate_tools_response total servers now).servers.map (fun s => s.status)
        = servers.map (fun r => if r.errors.isEmpty then "connected" else "error")
    ∧ (enumerate_tools_response total servers now).connected_servers
        = servers.countP (fun r => r.errors.isEmpty)
    ∧ ((enumerate_tools_response total servers now).status = "success"
        ↔ servers.any (fun r => r.errors.isEmpty) = true)
    ∧ ((enumerate_tools_response total servers now).status = "error"
        ↔ servers.any (fun r => r.errors.isEmpty) = false) := by
  constructor
  · simp [enumerate_tools_response, aggregate_servers_eq, List.map_map,
      simplified_server_of, Function.comp]
  constructor
  · simp [enumerate_tools_response, aggregate_servers_eq]
  have hany := countP_pos_iff_any (fun r => r.errors.isEmpty) servers
  by_cases h : 0 < servers.countP fun r => r.errors.isEmpty
  · have h1 : servers.any (fun r => r.errors.isEmpty) = true := hany.mp h
    simp [enumerate_tools_response, aggregate_servers_eq, h, h1]
  · have h1 : servers.any (fun r => r.errors.isEmpty) = false := by
      cases hx : servers.any fun r => r.errors.isEmpty
      · rfl
      · exact absurd (hany.mpr hx) h
    simp [enumerate_tools_response, aggregate_servers_eq, h, h1]

/-- C2: deadline expiry at the per-server boundary yields an empty tool
list and exactly one timeout error string; any other exception yields an
empty tool list and exactly one generic-failure error string; both are
returned as ordinary results. -/
theorem claim2_error_boundary (server_name : String)
    (server_config : McpServerConfig) (timeout_seconds : Nat)
    (include_schemas : Bool) (duration_ms : Nat) (msg : String) :
    ((enumerate_server_tools server_name server_config timeout_seconds
        include_schemas .timeout duration_ms).tools = []
      ∧ (enumerate_server_tools server_name server_config timeout_seconds
          include_schemas .timeout duration_ms).errors
        = [s!"Discovery timeout after {timeout_seconds} seconds"]
      ∧ (enumerate_server_tools server_name server_config timeout_seconds
          include_schemas .timeout duration_ms).errors.length = 1)
    ∧ ((enumerate_server_tools server_name server_config timeout_seconds
        include_schemas (.exn msg) duration_ms).tools = []
      ∧ (enumerate_server_tools server_name server_config timeout_seconds
          include_schemas (.exn msg) duration_ms).errors
        = ["Discovery failed: " ++ msg]
      ∧ (enumerate_server_tools server_name server_config timeout_seconds
          include_schemas (.exn msg) duration_ms).errors.length = 1) :=
  ⟨⟨rfl, rfl, rfl⟩, ⟨rfl, rfl, rfl⟩⟩

/-- C4: on every exit path out of the post-spawn body of the process
strategy, the teardown runs: the process is gracefully terminated when it
responds to the signal within the bounded wait and force-killed otherwise,
and in no case is it still running when the call returns. -/
theorem claim4_teardown (server_name : String) (exit_path : StdioBodyExit)
    (responds : Bool) :
    (stdio_post_spawn server_name exit_path responds).2
        = (if responds then ProcState.terminated else ProcState.killed)
    ∧ (stdio_post_spawn server_name exit_path responds).2 ≠ ProcState.running := by
  cases exit_path <;> cases responds <;>
    simp [stdio_post_spawn, process_teardown]

/-- C9: the strategy selector is a total function of the configuration
shape: a truthy `url` selects HTTP discovery; otherwise a truthy `command`
selects STDIO introspection; otherwise the MCP-JSON fallback. It never
yields anything else. -/
theorem claim9_selector (server_config : McpServerConfig) :
    (auto_select_strategy server_config = .http_discovery
        ↔ optStrTruthy server_config.url = true)
    ∧ (auto_select_strategy server_config = .stdio_introspection
        ↔ (optStrTruthy server_config.url = false
            ∧ optStrTruthy server_config.command = true))
    ∧ (auto_select_strategy server_config = .mcp_json_parsing
        ↔ (optStrTruthy server_config.url = false
            ∧ optStrTruthy server_config.command = false))
    ∧ auto_select_strategy server_config ≠ .combined := by
  cases hu : optStrTruthy server_config.url <;>
    cases hc : optStrTruthy server_config.command <;>
    simp [auto_select_strategy, hu, hc]

/-! ## Parallel vs. sequential collection -/

theorem gather_collect_map
    (f : String → McpServerConfig → Except String ServerEnumerationResult)
    (l : List (String × McpServerConfig)) :
    gather_collect (l.map (fun a => (a.1, f a.1 a.2))) = sequential_enumerate f l := by
  induction l with
  | nil => rfl
  | cons p rest ih =>
    obtain ⟨n, c⟩ := p
    cases hf : f n c <;>
      simp [gather_collect, sequential_enumerate, hf, ih]

theorem parallel_eq_sequential
    (f : String → McpServerConfig → Except String ServerEnumerationResult)
    (servers : List (String × McpServerConfig)) :
    parallel_enumerate f servers = sequential_enumerate f servers := by
  have h : (servers.map Prod.fst).zip (servers.map (fun p => f p.1 p.2))
      = servers.map (fun a => (a.1, f a.1 a.2)) := by
    simp [List.zip_map']
  simp [parallel_enumerate, h, gather_collect_map]

theorem sequential_fst_filterMap
    (f : String → McpServerConfig → Except String ServerEnumerationResult)
    (servers : List (String × McpServerConfig)) :
    (sequential_enumerate f servers).1
      = servers.filterMap (fun p => (f p.1 p.2).toOption) := by
  induction servers with
  | nil => rfl
  | cons p rest ih =>
    obtain ⟨n, c⟩ := p
    cases hf : f n c <;>
      simp [sequential_enumerate, hf, ih, Except.toOption]

/-- C3: the parallel and sequential branches produce identical per-server
outcomes (the same collected results — hence the same per-server tool,
error and warning lists — and the same global errors), the sequential
branch visits servers in configuration order, and the whole response is
independent of the parallel flag. -/
theorem claim3_parallel_sequential
    (f : String → McpServerConfig → Except String ServerEnumerationResult)
    (servers : List (String × McpServerConfig)) (now : String) :
    parallel_enumerate f servers = sequential_enumerate f servers
    ∧ (sequential_enumerate f servers).1
        = servers.filterMap (fun p => (f p.1 p.2).toOption)
    ∧ (parallel_enumerate f servers).1.map (fun r => (r.tools, r.errors, r.warnings))
        = (sequential_enumerate f servers).1.map (fun r => (r.tools, r.errors, r.warnings))
    ∧ enumerate_tools_model f true servers now
        = enumerate_tools_model f false servers now := by
  refine ⟨parallel_eq_sequential f servers, sequential_fst_filterMap f servers, ?_, ?_⟩
  · rw [parallel_eq_sequential]
  · simp [enumerate_tools_model, parallel_eq_sequential]

/-! ## The fallback strategy claims -/

/-- A configuration whose `env` holds a secret value, to exhibit what the
placeholder's metadata exposes. -/
def cfgC5 : McpServerConfig :=
  { env := some [("SECRET_TOKEN", "hunter2")] }

/-- C5 counterexample: the placeholder's configuration summary stores the
whole `env` mapping — the key name together with its value "hunter2" — not
the key names only, so an environment value is exposed. -/
theorem claim5_counterexample :
    ((mcpJsonParsing_discover_tools "paypal" cfgC5 "2025-09-14T00:00:00").1.map
        (fun tool => Json.pyGet (.obj tool.metadata) "env"))
      = [Json.obj [("SECRET_TOKEN", Json.str "hunter2")]]
    ∧ Json.mentionsStr "hunter2"
        (Json.obj [("SECRET_TOKEN", Json.str "hunter2")]) = true :=
  ⟨rfl, by simp [Json.mentionsStr]⟩

/-- C5 amended: the fallback strategy never fails (its error list is
empty), produces exactly one placeholder descriptor with no schema tagged
as metadata-only discovery plus the no-live-discovery warning, and the
placeholder's configuration summary stores the full environment mapping —
key names and values. -/
theorem claim5_amended (server_name : String)
    (server_config : McpServerConfig) (now : String) :
    (mcpJsonParsing_discover_tools server_name server_config now).2.1 = []
    ∧ (mcpJsonParsing_discover_tools server_name server_config now).2.2
        = ["Created fallback tool from MCP JSON config for " ++ server_name]
    ∧ (mcpJsonParsing_discover_tools server_name server_config now).1.map
        (fun tool => (tool.input_schema, tool.discovery_method,
          Json.pyGet (.obj tool.metadata) "env"))
      = [(none, ToolDiscoveryMethod.mcp_json_parsing,
          jsonOfOptEnv server_config.env)] :=
  ⟨rfl, rfl, rfl⟩

/-! ## The HTTP tool-entry normalization claim -/

/-- The flat test entry of the spec. -/
def flat_entry : Json := .obj [("name", .str "a"), ("description", .str "d")]

/-- The singly-keyed wrapper test entry of the spec. -/
def wrapped_entry : Json :=
  .obj [("x", .obj [("name", .str "a"), ("description", .str "d")])]

/-- C7: the flat entry and the singly-keyed wrapper entry normalize to the
same name "a" and description "d", and the wrapper detection fires exactly
when one key is present and none of the recognized direct field names
(`name`, `description`, `inSchema`, `inputSchema`) is present. -/
theorem claim7_normalization :
    (normalizeToolEntry 0 flat_entry).map (fun r => (r.actual_name, r.description))
      = some (Json.str "a", Json.str "d")
    ∧ (normalizeToolEntry 0 wrapped_entry).map (fun r => (r.actual_name, r.description))
      = some (Json.str "a", Json.str "d")
    ∧ ∀ tool_data : Json,
        (is_nested_tool_entry tool_data = true
          ↔ (tool_data.numKeys = 1
              ∧ tool_data.hasKey "name" = false
              ∧ tool_data.hasKey "description" = false
              ∧ tool_data.hasKey "inSchema" = false
              ∧ tool_data.hasKey "inputSchema" = false)) := by
  refine ⟨rfl, rfl, ?_⟩
  intro tool_data
  simp [is_nested_tool_entry, recognized_direct_keys, List.any,
    Bool.and_eq_true, Nat.beq_eq_true_eq]

/-! ## The info-endpoint probe claims -/

theorem public_info_loop_first (resp : String → Option Json)
    (endpoints : List String) :
    public_info_loop resp endpoints []
      = (match endpoints.find? (fun ep => !(endpoint_tools resp ep).isEmpty) with
         | some ep => Except.ok (endpoint_tools resp ep)
         | none => Except.error "No valid public info endpoints found") := by
  induction endpoints with
  | nil => rfl
  | cons ep rest ih =>
    cases he : endpoint_entries resp ep with
    | none =>
      have ht : endpoint_tools resp ep = [] := by simp [endpoint_tools, he]
      simp [public_info_loop, he, List.find?, ht, ih]
    | some entries =>
      cases hE : entries with
      | nil =>
        have ht : endpoint_tools resp ep = [] := by simp [endpoint_tools, he, hE]
        simp [public_info_loop, he, hE, List.find?, ht, ih]
      | cons e es =>
        have ht : endpoint_tools resp ep = (e :: es).map (fun x => (ep, x)) := by
          simp [endpoint_tools, he, hE]
        simp [public_info_loop, he, hE, List.find?, ht]

/-- HTTP responses where both the informational path and the root path
answer 200 with one tool each, named after their endpoint. -/
def respC6 : String → Option Json := fun endpoint =>
  if endpoint = "/info" then
    some (.obj [("tools", .arr [.obj [("name", .str "info_tool")]])])
  else if endpoint = "/" then
    some (.obj [("tools", .arr [.obj [("name", .str "root_tool")]])])
  else none

/-- C6 counterexample: when both `/info` and `/` yield a tool, the probe
returns the tool of the root path, because the endpoint list is the
declared list reversed — the root path is probed first, not last. -/
theorem claim6_counterexample :
    info_endpoints.head? = some "/"
    ∧ discover_public_info respC6
      = .ok [("/", { actual_name := Json.str "root_tool",
                     description := Json.null, schema_data := Json.null })]
    ∧ ("/" : String) ≠ "/info" :=
  ⟨rfl, rfl, by decide⟩

/-- C6 amended: the probe issues GETs against its fixed list of
conventional metadata paths in the reverse of the declared order — the
root path first, the informational path last — stopping at the first path
whose 200 JSON body yields at least one tool. -/
theorem claim6_amended (resp : String → Option Json) :
    info_endpoints = ["/", "/api/info", "/.well-known/mcp", "/info"]
    ∧ discover_public_info resp
      = (match info_endpoints.find? (fun ep => !(endpoint_tools resp ep).isEmpty) with
         | some ep => Except.ok (endpoint_tools resp ep)
         | none => Except.error "No valid public info endpoints found") :=
  ⟨rfl, public_info_loop_first resp info_endpoints⟩

/-! ## Schema stripping (C8) -/

/-- What disabling schema inclusion does to one server result. -/
def strip_result (r : ServerEnumerationResult) : ServerEnumerationResult :=
  { r with tools := r.tools.map (fun tool => { tool with input_schema := none }) }

theorem enumerate_server_tools_strip (server_name : String)
    (server_config : McpServerConfig) (timeout_seconds : Nat)
    (outcome : DiscoveryOutcome) (duration_ms : Nat) :
    enumerate_server_tools server_name server_config timeout_seconds false
        outcome duration_ms
      = strip_result (enumerate_server_tools server_name server_config
          timeout_seconds true outcome duration_ms) := by
  cases outcome <;> rfl

theorem sequential_ok (g : String → McpServerConfig → ServerEnumerationResult)
    (servers : List (String × McpServerConfig)) :
    sequential_enumerate (fun n c => .ok (g n c)) servers
      = (servers.map (fun p => g p.1 p.2), []) := by
  induction servers with
  | nil => rfl
  | cons p rest ih =>
    obtain ⟨n, c⟩ := p
    simp [sequential_enumerate, ih]

/-- `enumerate_tools` under the environment reduces, for either value of
the parallel flag, to aggregating the per-server results in configuration
order. -/
theorem full_response (env : DiscoveryEnv) (parallel_discovery : Bool)
    (timeout_seconds : Nat) (include_schemas : Bool)
    (servers : List (String × McpServerConfig)) :
    enumerate_tools_full env parallel_discovery timeout_seconds include_schemas servers
      = enumerate_tools_response servers.length
          (servers.map (fun p =>
            server_result_model env timeout_seconds include_schemas p.1 p.2))
          env.now := by
  cases parallel_discovery <;>
    simp [enumerate_tools_full, enumerate_tools_model, parallel_eq_sequential,
      sequential_ok]

theorem simplified_server_of_strip (r : ServerEnumerationResult) :
    simplified_server_of (strip_result r) = simplified_server_of r := by
  simp [simplified_server_of, strip_result]

theorem simplified_tools_of_strip (r : ServerEnumerationResult) :
    simplified_tools_of (strip_result r)
      = (simplified_tools_of r).map (fun st => { st with inputSchema := none }) := by
  simp [simplified_tools_of, strip_result, List.map_map, Function.comp]

theorem response_strip (total : Nat) (l : List ServerEnumerationResult)
    (now : String) :
    enumerate_tools_response total (l.map strip_result) now
      = { enumerate_tools_response total l now with
          tools := (enumerate_tools_response total l now).tools.map
            (fun st => { st with inputSchema := none }) } := by
  have hsrv : (l.map strip_result).map simplified_server_of
      = l.map simplified_server_of := by
    simp [List.map_map, Function.comp, simplified_server_of_strip]
  have hcnt : (l.map strip_result).countP (fun s => s.errors.isEmpty)
      = l.countP (fun s => s.errors.isEmpty) := by
    rw [List.countP_map]
    rfl
  have htls : ((l.map strip_result).map simplified_tools_of).flatten
      = ((l.map simplified_tools_of).flatten).map
          (fun st => { st with inputSchema := none }) := by
    rw [List.map_flatten, List.map_map, List.map_map]
    simp [Function.comp_def, simplified_tools_of_strip]
  simp only [enumerate_tools_response, aggregate_servers_eq, hsrv, hcnt, htls]

/-- C8: with schema inclusion disabled, the response is the response with
schemas enabled except that every flattened tool's schema is nulled; tool
names and descriptions (and everything else: per-server summaries, counts,
status, message) are unchanged. At the per-server boundary the stripping
acts on the discovery outcome after it completes and before aggregation,
changing nothing but each tool's schema field. -/
theorem claim8_schema_stripping (env : DiscoveryEnv) (parallel_discovery : Bool)
    (timeout_seconds : Nat) (servers : List (String × McpServerConfig)) :
    (enumerate_tools_full env parallel_discovery timeout_seconds false servers
      = { enumerate_tools_full env parallel_discovery timeout_seconds true servers with
          tools := (enumerate_tools_full env parallel_discovery timeout_seconds
              true servers).tools.map (fun st => { st with inputSchema := none }) })
    ∧ (enumerate_tools_full env parallel_discovery timeout_seconds false servers).tools.map
        (fun st => st.inputSchema)
      = (enumerate_tools_full env parallel_discovery timeout_seconds true servers).tools.map
        (fun _ => (none : Option ToolSchema))
    ∧ (enumerate_tools_full env parallel_discovery timeout_seconds false servers).tools.map
        (fun st => (st.server, st.name, st.description))
      = (enumerate_tools_full env parallel_discovery timeout_seconds true servers).tools.map
        (fun st => (st.server, st.name, st.description))
    ∧ (enumerate_tools_full env parallel_discovery timeout_seconds false servers).servers
      = (enumerate_tools_full env parallel_discovery timeout_seconds true servers).servers
    ∧ ∀ (n : String) (c : McpServerConfig) (out : DiscoveryOutcome) (d : Nat),
        enumerate_server_tools n c timeout_seconds false out d
          = { enumerate_server_tools n c timeout_seconds true out d with
              tools := (enumerate_server_tools n c timeout_seconds true out d).tools.map
                (fun tool => { tool with input_schema := none }) } := by
  have hmain : enumerate_tools_full env parallel_discovery timeout_seconds false servers
      = { enumerate_tools_full env parallel_discovery timeout_seconds true servers with
          tools := (enumerate_tools_full env parallel_discovery timeout_seconds
              true servers).tools.map (fun st => { st with inputSchema := none }) } := by
    rw [full_response, full_response]
    have hpt : servers.map (fun p =>
          server_result_model env timeout_seconds false p.1 p.2)
        = (servers.map (fun p =>
            server_result_model env timeout_seconds true p.1 p.2)).map strip_result := by
      rw [List.map_map]
      have : ∀ p : String × McpServerConfig,
          server_result_model env timeout_seconds false p.1 p.2
            = strip_result (server_result_model env timeout_seconds true p.1 p.2) :=
        fun p => enumerate_server_tools_strip p.1 p.2 timeout_seconds _ _
      simp [Function.comp, this]
    rw [hpt, response_strip]
  refine ⟨hmain, ?_, ?_, ?_, ?_⟩
  · rw [hmain]
    simp only [List.map_map]
    rfl
  · rw [hmain]
    simp only [List.map_map]
    rfl
  · rw [hmain]
  · intro n c out d
    exact enumerate_server_tools_strip n c timeout_seconds out d

/-! ## Fallback-only configurations (C10) -/

theorem fallback_result_errors (env : DiscoveryEnv) (timeout_seconds : Nat)
    (include_schemas : Bool) (server_name : String) (cfg : McpServerConfig)
    (hu : optStrTruthy cfg.url = false) (hc : optStrTruthy cfg.command = false) :
    (server_result_model env timeout_seconds include_schemas server_name cfg).errors
      = [] := by
  have hsel : auto_select_strategy cfg = .mcp_json_parsing := by
    simp [auto_select_strategy, hu, hc]
  simp [server_result_model, dispatch_outcome, hsel, enumerate_server_tools,
    mcpJsonParsing_discover_tools]

/-- C10: when every configured server has neither a (truthy) url nor a
(truthy) command, the fallback strategy serves each of them with an empty
error list, so every per-server summary is "connected", `connected_servers`
equals the server count, and — for a non-empty configuration — the overall
status is "success" even though no live discovery occurred. -/
theorem claim10_fallback_connected (env : DiscoveryEnv) (timeout_seconds : Nat)
    (include_schemas : Bool) (servers : List (String × McpServerConfig))
    (hne : servers ≠ [])
    (hshape : ∀ p ∈ servers,
      optStrTruthy p.2.url = false ∧ optStrTruthy p.2.command = false) :
    (servers.map (fun p =>
        (server_result_model env timeout_seconds include_schemas p.1 p.2).errors)
      = servers.map (fun _ => ([] : List String)))
    ∧ ((enumerate_tools_full env false timeout_seconds include_schemas
          servers).servers.map (fun s => s.status)
        = servers.map (fun _ => "connected"))
    ∧ (enumerate_tools_full env false timeout_seconds include_schemas
        servers).connected_servers = servers.length
    ∧ (enumerate_tools_full env false timeout_seconds include_schemas
        servers).status = "success" := by
  have herr : ∀ p ∈ servers,
      (server_result_model env timeout_seconds include_schemas p.1 p.2).errors = [] :=
    fun p hp => fallback_result_errors env timeout_seconds include_schemas p.1 p.2
      (hshape p hp).1 (hshape p hp).2
  have hcnt : (servers.map (fun p =>
        server_result_model env timeout_seconds include_schemas p.1 p.2)).countP
      (fun s => s.errors.isEmpty) = servers.length := by
    rw [List.countP_map, List.countP_eq_length]
    intro p hp
    simp [Function.comp, herr p hp]
  refine ⟨?_, ?_, ?_, ?_⟩
  · exact List.map_congr_left (fun p hp => by simp [herr p hp])
  · rw [full_response]
    simp only [enumerate_tools_response, aggregate_servers_eq, List.map_map]
    exact List.map_congr_left (fun p hp => by
      simp [Function.comp, simplified_server_of, herr p hp])
  · rw [full_response]
    simp only [enumerate_tools_response, aggregate_servers_eq]
    exact hcnt
  · rw [full_response]
    have hpos : 0 < servers.length := List.length_pos.mpr hne
    simp only [enumerate_tools_response, aggregate_servers_eq, hcnt]
    simp [hpos]

/-- A concrete environment and a one-server configuration with neither url
nor command, witnessing the hypotheses of the C10 theorem. -/
def envW : DiscoveryEnv :=
  { http_outcome := fun _ _ => .timeout,
    stdio_outcome := fun _ _ => .timeout,
    now := "t0",
    duration_ms := fun _ => 0 }

theorem claim10_witness :
    ([("s1", ({} : McpServerConfig))].map (fun p =>
        (server_result_model envW 30 true p.1 p.2).errors)
      = [("s1", ({} : McpServerConfig))].map (fun _ => ([] : List String)))
    ∧ ((enumerate_tools_full envW false 30 true
          [("s1", ({} : McpServerConfig))]).servers.map (fun s => s.status)
        = [("s1", ({} : McpServerConfig))].map (fun _ => "connected"))
    ∧ (enumerate_tools_full envW false 30 true
        [("s1", ({} : McpServerConfig))]).connected_servers
      = [("s1", ({} : McpServerConfig))].length
    ∧ (enumerate_tools_full envW false 30 true
        [("s1", ({} : McpServerConfig))]).status = "success" :=
  claim10_fallback_connected envW 30 true [("s1", {})]
    (List.cons_ne_nil _ _) (by decide)

end McpEnum
